import Mathlib

/-
Verification development for src/src/modules/reversi/back.ts: the reversi
backend session (class Session). The session consumes inbound messages from
the parent process (_init_, started, ended, log), maintains turn state, calls
an external inference service from think(), and publishes a terminal note on
ended. Handlers are async: think() suspends at its awaited fetch and onEnded
suspends at its awaited post, so the model is a small-step machine whose
actions are either the delivery of an inbound message or the resumption of a
suspended continuation.

The board-rules engine (./engine.js) is not part of the sources, so it is
modelled from the spec as an abstract state with a parametric transition
(EngineSem); everything else is translated from back.ts.
-/

namespace ReversiBack

/-- Modelled from the spec: the engine's Color type (engine.js is not in the
sources). The source assigns the boolean expression on line 109 of back.ts to
`botColor : Reversi.Color` and compares `engine.turn === this.botColor`, so a
Color is a boolean; BLACK is the first-mover color (think sends turn indicator
0 for it), modelled as true so that botColor = true means the bot plays the
first-mover color. -/
abbrev Color := Bool

/-- The first-mover color. -/
def BLACK : Color := true

/-- The second-mover color. -/
def WHITE : Color := false

/-- An argument passed to engine.putStone: onLog passes the numeric log.pos,
while think() passes the raw response text (a string) without parsing it. -/
inductive PutArg
  | fromPos (pos : Int)
  | fromText (raw : String)
deriving Repr, DecidableEq

/-- Modelled from the spec: the rules-engine state (board map, cell array,
whose turn it is). The map keeps the source's string cells so that maxTurn's
filter on the literal cell value can be translated verbatim. -/
structure Engine where
  map : List String
  board : List (Option Color)
  turn : Option Color
deriving Repr, DecidableEq

/-- The rule-variant flags passed to the engine constructor (back.ts 101-105). -/
structure EngineOpts where
  isLlotheo : Bool
  canPutEverywhere : Bool
  loopedBoard : Bool
deriving Repr, DecidableEq

/-- Modelled from the spec: the engine's constructor and its place-stone
transition are out of the spec's scope (legal-move generation and flipping are
external), so the machine is parametric in them. -/
structure EngineSem where
  init : List String → EngineOpts → Engine
  put : Engine → PutArg → Engine

/-- The game snapshot fields the session reads (back.ts). -/
structure Game where
  user1Id : String
  user2Id : String
  black : Nat
  canPutEverywhere : Bool
  isLlotheo : Bool
  loopedBoard : Bool
  surrendered : Bool
  map : List String
deriving Repr, DecidableEq

/-- One reversi-form item; allowPost reads the item with id `publish`. -/
structure FormItem where
  id : String
  value : Bool
deriving Repr, DecidableEq

/-- allowPost getter (back.ts 60-62): the value of the form item whose id is
`publish`. -/
def allowPost (form : List FormItem) : Bool :=
  ((form.find? fun i => i.id == "publish").map FormItem.value).getD false

/-- The serif keys selectable by onEnded (back.ts 125-153). The serif
templating layer itself is external; the model records which key is chosen. -/
inductive SerifKey
  | settaiButYouSurrendered
  | youSurrendered
  | iWonButSettai
  | iWon
  | iLoseButSettai
  | iLose
  | drawnSettai
  | drawn
deriving Repr, DecidableEq

/-- The value of this.isSettai read by onEnded: the Session class never
declares nor assigns a member named isSettai, so in every execution the read
yields the JS value undefined, which is falsy; the model therefore fixes it to
false. -/
def sessionIsSettai : Bool := false

/-- The serif-key selection of onEnded (back.ts 125-153) as a pure function.
A present but empty winnerId string is falsy in JS, hence falls into the drawn
branch, mirroring `else if (msg.winnerId)`. -/
def outcomeKey (isSettai : Bool) (accountId : String) (surrendered : Bool)
    (winnerId : Option String) : SerifKey :=
  if surrendered then
    if isSettai then .settaiButYouSurrendered else .youSurrendered
  else
    match winnerId with
    | some w =>
      if w == "" then
        if isSettai then .drawnSettai else .drawn
      else if w == accountId then
        if isSettai then .iWonButSettai else .iWon
      else
        if isSettai then .iLoseButSettai else .iLose
    | none => if isSettai then .drawnSettai else .drawn

/-- The note-create body issued by post (back.ts 244-269): text (recorded by
its serif key), visibility `home`, and renoteId only when the renote argument
is truthy. -/
structure PostBody where
  text : SerifKey
  visibility : String
  renoteId : Option Nat
deriving Repr, DecidableEq

/-- One logged operation (back.ts onLog): an optional id and the operation;
only `put` carries a position and is handled, every other operation falls to
the default branch. -/
inductive LogOp
  | put (pos : Int)
  | other (tag : String)
deriving Repr, DecidableEq

/-- A log message body. -/
structure LogMsg where
  id : Option String
  op : LogOp
deriving Repr, DecidableEq

/-- The inbound messages dispatched by onMessage (back.ts 72-79). -/
inductive Msg
  | init (g : Game) (form : List FormItem) (accountId : String)
  | started (g : Game)
  | ended (g : Game) (winnerId : Option String)
  | log (l : LogMsg)
deriving Repr, DecidableEq

/-- The outcome of the awaited fetch in think(): the promise rejects
(transport error), resolves with a non-ok status, or resolves ok with a body
text. -/
inductive FetchResult
  | transportError
  | httpError (status : Nat)
  | ok (body : String)
deriving Repr, DecidableEq

/-- Whether a fetch result is a successful response. -/
def FetchResult.isOk : FetchResult → Bool
  | .ok _ => true
  | _ => false

/-- The session state. Fields up to startedNote are the Session members of
back.ts; the remaining fields make the observable effects and the suspended
continuations of the async handlers explicit: exited is process.exit having
run, sentEnded counts outbound process.send ended messages, inFlightThinks
counts fetches issued by think() and not yet resolved, thinkCalls counts
think() invocations, putArgs records every engine.putStone call in order,
posts records every issued note-create body, errorsLogged counts the
console.error calls of think's catch, and pendingEndedExits counts onEnded
continuations awaiting their post (whose resumption runs process.exit). -/
structure Sst where
  accountId : String
  game : Option Game
  form : List FormItem
  engine : Option Engine
  botColor : Bool
  appliedOps : List String
  maxTurn : Int
  currentTurn : Nat
  startedNote : Option Nat
  exited : Bool
  sentEnded : Nat
  inFlightThinks : Nat
  thinkCalls : Nat
  putArgs : List PutArg
  posts : List PostBody
  errorsLogged : Nat
  pendingEndedExits : Nat
deriving Repr, DecidableEq

/-- The state of a fresh Session: account/game/form/engine are undefined until
the corresponding messages arrive (botColor's JS value undefined is falsy,
modelled false), appliedOps is empty, currentTurn is 0 and startedNote null
(back.ts 34-49). -/
def initialSession : Sst :=
  { accountId := "", game := none, form := [], engine := none, botColor := false,
    appliedOps := [], maxTurn := 0, currentTurn := 0, startedNote := none,
    exited := false, sentEnded := 0, inFlightThinks := 0, thinkCalls := 0,
    putArgs := [], posts := [], errorsLogged := 0, pendingEndedExits := 0 }

/-- this.botColor as computed on started (back.ts 109): a boolean, true
exactly when this account is the participant holding black. -/
def botColorOf (g : Game) (accountId : String) : Bool :=
  (g.user1Id == accountId && g.black == 1) || (g.user2Id == accountId && g.black == 2)

/-- maxTurn as computed on started (back.ts 107): placeable map cells minus
initially occupied board cells. -/
def maxTurnOf (e : Engine) : Int :=
  ((e.map.filter fun p => p == "empty").length : Int)
    - ((e.board.filter fun x => x.isSome).length : Int)

/-- The synchronous part of think() (back.ts 211-225): it reads the board and
issues the fetch, then suspends; the response is handled by stepResumeThink.
No guard is taken before issuing the request. -/
def thinkStart (s : Sst) : Sst :=
  { s with thinkCalls := s.thinkCalls + 1, inFlightThinks := s.inFlightThinks + 1 }

/-- onStarted (back.ts 91-114): store the snapshot; on canPutEverywhere send
the outbound ended message and exit; otherwise construct the engine, compute
maxTurn and botColor, and think when botColor is truthy. -/
def stepStarted (sem : EngineSem) (s : Sst) (g : Game) : Sst :=
  let s1 := { s with game := some g }
  if g.canPutEverywhere then
    { s1 with sentEnded := s1.sentEnded + 1, exited := true }
  else
    let e := sem.init g.map
      { isLlotheo := g.isLlotheo, canPutEverywhere := g.canPutEverywhere,
        loopedBoard := g.loopedBoard }
    let bc := botColorOf g s1.accountId
    let s2 := { s1 with engine := some e, maxTurn := maxTurnOf e, botColor := bc }
    if bc then thinkStart s2 else s2

/-- onEnded up to its await (back.ts 119-158): send the outbound ended
message, select the serif key with the undefined isSettai member, and start
the post. When the publish flag allows posting, the note-create request is
issued and the handler suspends awaiting it (its resumption runs
process.exit); when it does not, post resolves without I/O and the
continuation (process.exit) runs on the microtask queue before any further
inbound message can be delivered, so the exit is immediate. -/
def stepEnded (s : Sst) (g : Game) (winnerId : Option String) : Sst :=
  let s1 := { s with sentEnded := s.sentEnded + 1 }
  let key := outcomeKey sessionIsSettai s1.accountId g.surrendered winnerId
  if allowPost s1.form then
    { s1 with
        posts := s1.posts ++ [{ text := key, visibility := "home", renoteId := s1.startedNote }],
        pendingEndedExits := s1.pendingEndedExits + 1 }
  else
    { s1 with exited := true }

/-- onLog (back.ts 163-180): when the id is null or not yet in appliedOps, a
put operation is applied to the engine, currentTurn is incremented, and think
runs when the engine's resulting turn equals botColor. The id is never
inserted into appliedOps (the source has no write to it). A log arriving
before started would dereference an undefined engine in the source; no claim
exercises that, and the model leaves the state unchanged there. -/
def stepLog (sem : EngineSem) (s : Sst) (l : LogMsg) : Sst :=
  if (match l.id with
      | none => true
      | some i => !(s.appliedOps.contains i)) then
    match l.op with
    | .put pos =>
      match s.engine with
      | some e =>
        let e2 := sem.put e (.fromPos pos)
        let s2 := { s with engine := some e2,
                           putArgs := s.putArgs ++ [.fromPos pos],
                           currentTurn := s.currentTurn + 1 }
        if e2.turn == some s2.botColor then thinkStart s2 else s2
      | none => s
    | .other _ => s
  else s

/-- onMessage dispatch (back.ts 72-79); after process.exit has run no handler
runs any more. -/
def stepDeliver (sem : EngineSem) (s : Sst) (m : Msg) : Sst :=
  if s.exited then s
  else
    match m with
    | .init g f a => { s with game := some g, form := f, accountId := a }
    | .started g => stepStarted sem s g
    | .ended g w => stepEnded s g w
    | .log l => stepLog sem s l

/-- Resumption of a suspended think() at its awaited fetch (back.ts 214-237):
on a rejection or a non-ok status the catch logs the error and nothing else
happens; on an ok response the raw body text is passed to engine.putStone and
currentTurn is incremented — no parsing or range validation occurs, and no
further think is triggered. -/
def stepResumeThink (sem : EngineSem) (s : Sst) (r : FetchResult) : Sst :=
  if s.exited || s.inFlightThinks == 0 then s
  else
    let s1 := { s with inFlightThinks := s.inFlightThinks - 1 }
    match r with
    | .transportError => { s1 with errorsLogged := s1.errorsLogged + 1 }
    | .httpError _ => { s1 with errorsLogged := s1.errorsLogged + 1 }
    | .ok body =>
      match s1.engine with
      | some e =>
        { s1 with engine := some (sem.put e (.fromText body)),
                  putArgs := s1.putArgs ++ [.fromText body],
                  currentTurn := s1.currentTurn + 1 }
      | none => s1

/-- Resumption of a suspended onEnded at its awaited post: the continuation
runs process.exit (back.ts 157). -/
def stepResumeEndedPost (s : Sst) : Sst :=
  if s.exited || s.pendingEndedExits == 0 then s
  else { s with pendingEndedExits := s.pendingEndedExits - 1, exited := true }

/-- One scheduler action: delivery of an inbound message, or resumption of a
suspended continuation with the outcome of its awaited operation. -/
inductive Act
  | deliver (m : Msg)
  | resumeThink (r : FetchResult)
  | resumeEndedPost
deriving Repr, DecidableEq

/-- The small-step transition. -/
def step (sem : EngineSem) (s : Sst) : Act → Sst
  | .deliver m => stepDeliver sem s m
  | .resumeThink r => stepResumeThink sem s r
  | .resumeEndedPost => stepResumeEndedPost s

/-- Run a schedule of actions from a state. -/
def run (sem : EngineSem) (s : Sst) (acts : List Act) : Sst :=
  acts.foldl (step sem) s

/-- boardStateToString (back.ts 183-188): one character per cell, `0` for
empty, `1` for the first color, `2` for the second. -/
def boardStateToString (board : List (Option Color)) : String :=
  String.join (board.map fun cell =>
    if cell = none then "0" else if cell = some BLACK then "1" else "2")

/-- The error thrown by executeCurlCommand (back.ts 190-209): one kind for a
non-empty stderr and one single kind for every invalid response body, whether
unparseable or out of range. -/
inductive CurlError
  | execError (stderr : String)
  | invalidResponse (stdout : String)
deriving Repr, DecidableEq

/-- Whether two curl errors are of the same kind (same constructor). -/
def CurlError.sameKind : CurlError → CurlError → Bool
  | .execError _, .execError _ => true
  | .invalidResponse _, .invalidResponse _ => true
  | _, _ => false

/-- Strip leading and trailing whitespace from a character list (the
String.prototype.trim applied to stdout in back.ts 200). -/
def trimChars (cs : List Char) : List Char :=
  ((cs.dropWhile Char.isWhitespace).reverse.dropWhile Char.isWhitespace).reverse

/-- Numeric value of the leading digit run. -/
def leadDigitsVal (cs : List Char) : Nat :=
  (cs.takeWhile Char.isDigit).foldl (fun n c => n * 10 + (c.toNat - 48)) 0

/-- Whether the first character is a digit. -/
def hasLeadDigit (cs : List Char) : Bool :=
  match cs with
  | [] => false
  | c :: _ => c.isDigit

/-- Modelled JS parseInt(str, 10): after trimming, an optional sign followed
by a longest run of decimal digits; none when no digit follows (NaN). -/
def parseInt10 (str : String) : Option Int :=
  let cs := trimChars str.toList
  match cs with
  | '-' :: rest => if hasLeadDigit rest then some (-(leadDigitsVal rest : Int)) else none
  | '+' :: rest => if hasLeadDigit rest then some ((leadDigitsVal rest : Int)) else none
  | _ => if hasLeadDigit cs then some ((leadDigitsVal cs : Int)) else none

/-- executeCurlCommand (back.ts 190-209) given the exec outcome: a non-empty
stderr throws Error executing curl command; otherwise the trimmed stdout is
parsed with parseInt and a NaN, negative or greater-than-63 value throws the
one Invalid response from server error; otherwise the integer is returned.
The source's think() never calls this helper. -/
def executeCurlCommand (stderr stdout : String) : Except CurlError Int :=
  if stderr != "" then .error (.execError stderr)
  else
    match parseInt10 stdout with
    | none => .error (.invalidResponse stdout)
    | some n => if n < 0 ∨ n > 63 then .error (.invalidResponse stdout) else .ok n

/-! Concrete fixtures used by the closed evaluation theorems. -/

/-- A one-placeable-cell engine: one `empty` map cell, no initial stones,
black to move. -/
def engine1 : Engine := { map := ["empty"], board := [], turn := some BLACK }

/-- An engine semantics that always constructs engine1 and after any
placement leaves the given color to move. -/
def semConst (t : Option Color) : EngineSem :=
  { init := fun _ _ => engine1, put := fun e _ => { e with turn := t } }

/-- Any placement leaves black (the first color) to move: the situation in
which the opposing side must pass. -/
def semBlackTurn : EngineSem := semConst (some BLACK)

/-- Any placement leaves white (the second color) to move: the situation
right after a regular first-color move. -/
def semWhiteTurn : EngineSem := semConst (some WHITE)

/-- A game between alice and bob; any other account spectates. -/
def gSpectator : Game :=
  { user1Id := "alice", user2Id := "bob", black := 1, canPutEverywhere := false,
    isLlotheo := false, loopedBoard := false, surrendered := false, map := ["empty"] }

/-- The same game with the bot as user1, holding black. -/
def gBotBlack : Game := { gSpectator with user1Id := "bot" }

/-- The same game with free placement enabled. -/
def gCpe : Game := { gSpectator with canPutEverywhere := true }

/-- The same game snapshot, surrendered. -/
def gSurrendered : Game := { gSpectator with surrendered := true }

/-- A form allowing the terminal publish. -/
def formPublish : List FormItem := [{ id := "publish", value := true }]

/-- An identified put operation. -/
def opPut26 : LogMsg := { id := some ("op1"), op := LogOp.put 26 }

/-- An unidentified put operation. -/
def opPutAnon : LogMsg := { id := none, op := LogOp.put 0 }

/-- Delivery of one identified put to a spectating session. -/
def traceOnePut : List Act :=
  [Act.deliver (Msg.init gSpectator formPublish ("bot")),
   Act.deliver (Msg.started gSpectator),
   Act.deliver (Msg.log opPut26)]

/-- The same trace with the identical log message delivered a second time. -/
def traceTwoPuts : List Act := traceOnePut ++ [Act.deliver (Msg.log opPut26)]

/-- A spectating session seeing one unidentified put. -/
def traceSpectatorPut : List Act :=
  [Act.deliver (Msg.init gSpectator formPublish ("bot")),
   Act.deliver (Msg.started gSpectator),
   Act.deliver (Msg.log opPutAnon)]

/-- The bot holds black, so started launches a think; the schedule then
resolves the fetch successfully with the given body text. -/
def traceThinkOk (body : String) : List Act :=
  [Act.deliver (Msg.init gBotBlack formPublish ("bot")),
   Act.deliver (Msg.started gBotBlack),
   Act.resumeThink (FetchResult.ok body)]

/-- A second ended message delivered while the first onEnded is suspended at
its awaited publish; the post then resolves. -/
def traceDoubleEnded : List Act :=
  [Act.deliver (Msg.init gSpectator formPublish ("bot")),
   Act.deliver (Msg.started gSpectator),
   Act.deliver (Msg.ended gSpectator none),
   Act.deliver (Msg.ended gSpectator none),
   Act.resumeEndedPost]

/-- A surrendered game ending. -/
def traceSurrendered : List Act :=
  [Act.deliver (Msg.init gSurrendered formPublish ("bot")),
   Act.deliver (Msg.ended gSurrendered none),
   Act.resumeEndedPost]

/-- The bot holds black: started launches a think, and an applied put whose
resulting turn is black again (the opponent must pass) arrives while that
fetch is still outstanding. -/
def traceTwoTriggers : List Act :=
  [Act.deliver (Msg.init gBotBlack formPublish ("bot")),
   Act.deliver (Msg.started gBotBlack),
   Act.deliver (Msg.log opPutAnon)]

/-- A spectating session right after started. -/
def sAfterStartedSpec : Sst :=
  run semWhiteTurn initialSession
    [Act.deliver (Msg.init gSpectator formPublish ("bot")),
     Act.deliver (Msg.started gSpectator)]

/-- A bot-plays-black session right after started, its first think's fetch
still in flight. -/
def sAfterStartedBot : Sst :=
  run semBlackTurn initialSession
    [Act.deliver (Msg.init gBotBlack formPublish ("bot")),
     Act.deliver (Msg.started gBotBlack)]

/-- The invariant behind C10: startedNote is still null and every issued
note-create body carries no renoteId. -/
def NoteInv (s : Sst) : Prop :=
  s.startedNote = none ∧ (s.posts.all fun p => p.renoteId == none) = true

/-! Theorems. -/

/-- After process.exit has run, no action changes the state. -/
theorem step_exited (sem : EngineSem) (s : Sst) (a : Act) (h : s.exited = true) :
    step sem s a = s := by
  cases a with
  | deliver m => simp [step, stepDeliver, h]
  | resumeThink r => simp [step, stepResumeThink, h]
  | resumeEndedPost => simp [step, stepResumeEndedPost, h]

/-- Every step preserves NoteInv: no handler assigns startedNote, and the only
post issued (by onEnded) takes its renoteId from startedNote. -/
theorem noteInv_step (sem : EngineSem) (s : Sst) (a : Act) (h : NoteInv s) :
    NoteInv (step sem s a) := by
  obtain ⟨h1, h2⟩ := h
  cases a with
  | deliver m =>
    cases m with
    | init g f acc =>
      simp only [step, stepDeliver]
      split
      · exact ⟨h1, h2⟩
      · exact ⟨h1, h2⟩
    | started g =>
      simp only [step, stepDeliver]
      split
      · exact ⟨h1, h2⟩
      · simp only [stepStarted]
        split
        · exact ⟨h1, h2⟩
        · split
          · exact ⟨h1, h2⟩
          · exact ⟨h1, h2⟩
    | ended g w =>
      simp only [step, stepDeliver]
      split
      · exact ⟨h1, h2⟩
      · simp only [stepEnded]
        split
        · refine ⟨h1, ?_⟩
          simp only [List.all_append, List.all_cons, List.all_nil, Bool.and_true]
          simp [h1, h2]
        · exact ⟨h1, h2⟩
    | log l =>
      simp only [step, stepDeliver]
      split
      · exact ⟨h1, h2⟩
      · simp only [stepLog]
        split
        · split
          · split
            · split
              · exact ⟨h1, h2⟩
              · exact ⟨h1, h2⟩
            · exact ⟨h1, h2⟩
          · exact ⟨h1, h2⟩
        · exact ⟨h1, h2⟩
  | resumeThink r =>
    simp only [step, stepResumeThink]
    split
    · exact ⟨h1, h2⟩
    · cases r with
      | transportError => exact ⟨h1, h2⟩
      | httpError st => exact ⟨h1, h2⟩
      | ok b =>
        split
        · exact ⟨h1, h2⟩
        · exact ⟨h1, h2⟩
        · split
          · exact ⟨h1, h2⟩
          · exact ⟨h1, h2⟩
  | resumeEndedPost =>
    simp only [step, stepResumeEndedPost]
    split
    · exact ⟨h1, h2⟩
    · exact ⟨h1, h2⟩

/-- NoteInv holds along every schedule. -/
theorem noteInv_run (sem : EngineSem) (acts : List Act) (s : Sst) (h : NoteInv s) :
    NoteInv (run sem s acts) := by
  induction acts generalizing s with
  | nil => exact h
  | cons a rest ih => exact ih (step sem s a) (noteInv_step sem s a h)

/-- C1: the source never writes appliedOps, so delivering the identical
identified put message twice applies it twice: after one delivery currentTurn
is 1, after the redelivery currentTurn is 2, appliedOps is still empty, the
engine received the same putStone call twice, and no think was triggered in
this spectator run — the redelivery is not a no-op. -/
theorem C1_redelivery_not_deduplicated :
    (run semBlackTurn initialSession traceOnePut).currentTurn = 1 ∧
    (run semBlackTurn initialSession traceTwoPuts).currentTurn = 2 ∧
    (run semBlackTurn initialSession traceTwoPuts).appliedOps = [] ∧
    (run semBlackTurn initialSession traceTwoPuts).putArgs
      = [PutArg.fromPos 26, PutArg.fromPos 26] ∧
    (run semBlackTurn initialSession traceTwoPuts).thinkCalls = 0 := by decide

/-- C2 (counterexample): a session whose account is neither participant — a
spectating session — still invokes think(): its botColor is the boolean false,
which is the white color value, so an applied put whose resulting turn is
white triggers think once. -/
theorem C2_spectator_thinks :
    (gSpectator.user1Id == "bot") = false ∧
    (gSpectator.user2Id == "bot") = false ∧
    (run semWhiteTurn initialSession traceSpectatorPut).accountId = "bot" ∧
    (run semWhiteTurn initialSession traceSpectatorPut).thinkCalls = 1 := by decide

/-- C2 (amended): on started, think() is invoked exactly when botColor is
true; botColor can only be true for an account that is one of the two
participants; and after an applied put, think() is invoked exactly when the
engine's resulting turn equals the botColor boolean — so a spectating session
(botColor false, the white color value) never thinks at started but does think
whenever the resulting turn is white. -/
theorem C2_think_trigger (sem : EngineSem) (s : Sst) (g : Game) (l : LogMsg) (pos : Int)
    (e : Engine)
    (hex : s.exited = false) (hcpe : g.canPutEverywhere = false)
    (heng : s.engine = some e) (hid : l.id = none) (hop : l.op = LogOp.put pos) :
    (stepDeliver sem s (Msg.started g)).thinkCalls
      = s.thinkCalls + (if botColorOf g s.accountId then 1 else 0) ∧
    (botColorOf g s.accountId && !(g.user1Id == s.accountId) && !(g.user2Id == s.accountId))
      = false ∧
    (stepDeliver sem s (Msg.log l)).thinkCalls
      = s.thinkCalls
          + (if (sem.put e (PutArg.fromPos pos)).turn == some s.botColor then 1 else 0) := by
  refine ⟨?_, ?_, ?_⟩
  · by_cases hbc : botColorOf g s.accountId = true
    · simp [stepDeliver, hex, stepStarted, hcpe, hbc, thinkStart]
    · simp [stepDeliver, hex, stepStarted, hcpe, hbc, thinkStart]
  · cases h1 : (g.user1Id == s.accountId) <;> cases h2 : (g.user2Id == s.accountId) <;>
      simp [botColorOf, h1, h2]
  · by_cases ht : (sem.put e (PutArg.fromPos pos)).turn == some s.botColor
    · simp [stepDeliver, hex, stepLog, hid, hop, heng, ht, thinkStart]
    · simp [stepDeliver, hex, stepLog, hid, hop, heng, ht, thinkStart]

/-- Witness for C2_think_trigger at a concrete spectating session. -/
theorem C2_think_trigger_witness :
    (stepDeliver semWhiteTurn sAfterStartedSpec (Msg.started gSpectator)).thinkCalls
      = sAfterStartedSpec.thinkCalls
          + (if botColorOf gSpectator sAfterStartedSpec.accountId then 1 else 0) ∧
    (botColorOf gSpectator sAfterStartedSpec.accountId
        && !(gSpectator.user1Id == sAfterStartedSpec.accountId)
        && !(gSpectator.user2Id == sAfterStartedSpec.accountId)) = false ∧
    (stepDeliver semWhiteTurn sAfterStartedSpec (Msg.log opPutAnon)).thinkCalls
      = sAfterStartedSpec.thinkCalls
          + (if (semWhiteTurn.put engine1 (PutArg.fromPos 0)).turn
                == some sAfterStartedSpec.botColor then 1 else 0) :=
  C2_think_trigger semWhiteTurn sAfterStartedSpec gSpectator opPutAnon 0 engine1
    (by decide) (by decide) (by decide) (by decide) (by decide)

/-- C3 (counterexample): the response validation of executeCurlCommand maps an
unparseable body and an out-of-range body to the same error kind, and think()
applies an out-of-range body to the engine rather than failing. -/
theorem C3_same_error_kind :
    executeCurlCommand ("") ("abc") = Except.error (CurlError.invalidResponse ("abc")) ∧
    executeCurlCommand ("") ("64") = Except.error (CurlError.invalidResponse ("64")) ∧
    CurlError.sameKind (CurlError.invalidResponse ("abc")) (CurlError.invalidResponse ("64"))
      = true ∧
    (run semBlackTurn initialSession (traceThinkOk ("64"))).putArgs
      = [PutArg.fromText ("64")] := by
  refine ⟨rfl, rfl, rfl, by decide⟩

/-- C3 (amended): the integer parsing and the range check live only in the
unused executeCurlCommand helper, which rejects an unparseable body and an
out-of-range integer with the one invalidResponse error kind and accepts 63;
think() itself performs no validation: on any ok response it passes the raw
body text to engine.putStone and increments currentTurn. -/
theorem C3_validation_location (sem : EngineSem) (s : Sst) (e : Engine) (body : String)
    (hex : s.exited = false) (hin : s.inFlightThinks = 1) (heng : s.engine = some e) :
    executeCurlCommand ("") ("abc") = Except.error (CurlError.invalidResponse ("abc")) ∧
    executeCurlCommand ("") ("64") = Except.error (CurlError.invalidResponse ("64")) ∧
    executeCurlCommand ("") ("-1") = Except.error (CurlError.invalidResponse ("-1")) ∧
    executeCurlCommand ("") ("63") = Except.ok 63 ∧
    CurlError.sameKind (CurlError.invalidResponse ("abc")) (CurlError.invalidResponse ("64"))
      = true ∧
    (stepResumeThink sem s (FetchResult.ok body)).putArgs
      = s.putArgs ++ [PutArg.fromText body] ∧
    (stepResumeThink sem s (FetchResult.ok body)).currentTurn = s.currentTurn + 1 := by
  refine ⟨rfl, rfl, rfl, rfl, rfl, ?_, ?_⟩ <;>
    simp [stepResumeThink, hex, hin, heng]

/-- Witness for C3_validation_location at a concrete in-flight think. -/
theorem C3_validation_location_witness :
    executeCurlCommand ("") ("abc") = Except.error (CurlError.invalidResponse ("abc")) ∧
    executeCurlCommand ("") ("64") = Except.error (CurlError.invalidResponse ("64")) ∧
    executeCurlCommand ("") ("-1") = Except.error (CurlError.invalidResponse ("-1")) ∧
    executeCurlCommand ("") ("63") = Except.ok 63 ∧
    CurlError.sameKind (CurlError.invalidResponse ("abc")) (CurlError.invalidResponse ("64"))
      = true ∧
    (stepResumeThink semBlackTurn sAfterStartedBot (FetchResult.ok ("abc"))).putArgs
      = sAfterStartedBot.putArgs ++ [PutArg.fromText ("abc")] ∧
    (stepResumeThink semBlackTurn sAfterStartedBot (FetchResult.ok ("abc"))).currentTurn
      = sAfterStartedBot.currentTurn + 1 :=
  C3_validation_location semBlackTurn sAfterStartedBot engine1 ("abc")
    (by decide) (by decide) (by decide)

/-- C4: onEnded has no at-most-once guard: a second ended message delivered
while the first onEnded is suspended at its awaited publish re-runs the
handler, producing a second outbound ended signal and a second publish. -/
theorem C4_double_ended_double_publish :
    (run semBlackTurn initialSession traceDoubleEnded).sentEnded = 2 ∧
    (run semBlackTurn initialSession traceDoubleEnded).posts.length = 2 ∧
    (run semBlackTurn initialSession traceDoubleEnded).exited = true := by decide

/-- C5: with a one-placeable-cell start (maxTurn = 1), redelivering the same
identified put makes currentTurn reach 2: currentTurn counts applications, not
distinct operations, and exceeds maxTurn. -/
theorem C5_currentTurn_exceeds_maxTurn :
    (run semBlackTurn initialSession traceTwoPuts).maxTurn = 1 ∧
    (run semBlackTurn initialSession traceTwoPuts).currentTurn = 2 ∧
    ¬ (((run semBlackTurn initialSession traceTwoPuts).currentTurn : Int)
        ≤ (run semBlackTurn initialSession traceTwoPuts).maxTurn) := by decide

/-- C6 (counterexample): a malformed response body is not a failure for
think(): the ok-status response text abc is applied to the engine, currentTurn
is incremented, and nothing is logged. -/
theorem C6_malformed_body_applied :
    (run semBlackTurn initialSession (traceThinkOk ("abc"))).putArgs
      = [PutArg.fromText ("abc")] ∧
    (run semBlackTurn initialSession (traceThinkOk ("abc"))).currentTurn = 1 ∧
    (run semBlackTurn initialSession (traceThinkOk ("abc"))).errorsLogged = 0 := by decide

/-- C6 (amended): a transport error or a non-success status during think() is
logged and recovered locally: no move is applied, currentTurn, the engine, the
posts and the outbound signals are unchanged, the process does not exit, and a
subsequent fresh put event is still applied and increments currentTurn. -/
theorem C6_transport_failures_recovered (sem : EngineSem) (s : Sst) (r : FetchResult)
    (l : LogMsg) (pos : Int) (e : Engine)
    (hex : s.exited = false) (hin : s.inFlightThinks = 1) (hfail : r.isOk = false)
    (heng : s.engine = some e) (hid : l.id = none) (hop : l.op = LogOp.put pos) :
    (stepResumeThink sem s r).errorsLogged = s.errorsLogged + 1 ∧
    (stepResumeThink sem s r).putArgs = s.putArgs ∧
    (stepResumeThink sem s r).currentTurn = s.currentTurn ∧
    (stepResumeThink sem s r).engine = s.engine ∧
    (stepResumeThink sem s r).exited = false ∧
    (stepResumeThink sem s r).posts = s.posts ∧
    (stepResumeThink sem s r).sentEnded = s.sentEnded ∧
    (stepDeliver sem (stepResumeThink sem s r) (Msg.log l)).currentTurn
      = s.currentTurn + 1 := by
  cases r with
  | ok b => simp [FetchResult.isOk] at hfail
  | transportError =>
    have h2 : stepResumeThink sem s FetchResult.transportError
        = { s with inFlightThinks := s.inFlightThinks - 1,
                   errorsLogged := s.errorsLogged + 1 } := by
      simp [stepResumeThink, hex, hin]
    rw [h2]
    refine ⟨rfl, rfl, rfl, rfl, hex, rfl, rfl, ?_⟩
    by_cases ht : (sem.put e (PutArg.fromPos pos)).turn == some s.botColor <;>
      simp [stepDeliver, hex, stepLog, hid, hop, heng, ht, thinkStart]
  | httpError st =>
    have h2 : stepResumeThink sem s (FetchResult.httpError st)
        = { s with inFlightThinks := s.inFlightThinks - 1,
                   errorsLogged := s.errorsLogged + 1 } := by
      simp [stepResumeThink, hex, hin]
    rw [h2]
    refine ⟨rfl, rfl, rfl, rfl, hex, rfl, rfl, ?_⟩
    by_cases ht : (sem.put e (PutArg.fromPos pos)).turn == some s.botColor <;>
      simp [stepDeliver, hex, stepLog, hid, hop, heng, ht, thinkStart]

/-- Witness for C6_transport_failures_recovered at a concrete in-flight
think whose fetch rejects. -/
theorem C6_transport_failures_recovered_witness :
    (stepResumeThink semBlackTurn sAfterStartedBot FetchResult.transportError).errorsLogged
      = sAfterStartedBot.errorsLogged + 1 ∧
    (stepResumeThink semBlackTurn sAfterStartedBot FetchResult.transportError).putArgs
      = sAfterStartedBot.putArgs ∧
    (stepResumeThink semBlackTurn sAfterStartedBot FetchResult.transportError).currentTurn
      = sAfterStartedBot.currentTurn ∧
    (stepResumeThink semBlackTurn sAfterStartedBot FetchResult.transportError).engine
      = sAfterStartedBot.engine ∧
    (stepResumeThink semBlackTurn sAfterStartedBot FetchResult.transportError).exited
      = false ∧
    (stepResumeThink semBlackTurn sAfterStartedBot FetchResult.transportError).posts
      = sAfterStartedBot.posts ∧
    (stepResumeThink semBlackTurn sAfterStartedBot FetchResult.transportError).sentEnded
      = sAfterStartedBot.sentEnded ∧
    (stepDeliver semBlackTurn
        (stepResumeThink semBlackTurn sAfterStartedBot FetchResult.transportError)
        (Msg.log opPutAnon)).currentTurn
      = sAfterStartedBot.currentTurn + 1 :=
  C6_transport_failures_recovered semBlackTurn sAfterStartedBot FetchResult.transportError
    opPutAnon 0 engine1 (by decide) (by decide) (by decide) (by decide) (by decide) (by decide)

/-- C7: onEnded reads this.isSettai, a member the Session class never declares
or assigns, so the exhibition variants are unreachable: a surrendered ending
publishes the plain youSurrendered key, while the selection function evaluated
with the flag true — what the claim requires — would select the distinct
exhibition variant. -/
theorem C7_exhibition_variant_unreachable :
    sessionIsSettai = false ∧
    (run semBlackTurn initialSession traceSurrendered).posts
      = [{ text := SerifKey.youSurrendered, visibility := "home", renoteId := none }] ∧
    outcomeKey true ("bot") true none = SerifKey.settaiButYouSurrendered ∧
    SerifKey.settaiButYouSurrendered ≠ SerifKey.youSurrendered := by decide

/-- C8: a started message with free placement enabled sends the outbound ended
message and exits at once: the engine is not constructed, maxTurn is not
computed, think is not called, and every subsequent action leaves the state
unchanged. -/
theorem C8_free_placement_terminates (sem : EngineSem) (s : Sst) (g : Game) (a : Act)
    (hex : s.exited = false) (hcpe : g.canPutEverywhere = true) :
    (stepDeliver sem s (Msg.started g)).sentEnded = s.sentEnded + 1 ∧
    (stepDeliver sem s (Msg.started g)).exited = true ∧
    (stepDeliver sem s (Msg.started g)).engine = s.engine ∧
    (stepDeliver sem s (Msg.started g)).maxTurn = s.maxTurn ∧
    (stepDeliver sem s (Msg.started g)).thinkCalls = s.thinkCalls ∧
    (stepDeliver sem s (Msg.started g)).inFlightThinks = s.inFlightThinks ∧
    step sem (stepDeliver sem s (Msg.started g)) a = stepDeliver sem s (Msg.started g) := by
  have h2 : stepDeliver sem s (Msg.started g)
      = { s with game := some g, sentEnded := s.sentEnded + 1, exited := true } := by
    simp [stepDeliver, hex, stepStarted, hcpe]
  rw [h2]
  refine ⟨rfl, rfl, rfl, rfl, rfl, rfl, ?_⟩
  exact step_exited sem _ a rfl

/-- Witness for C8_free_placement_terminates on a fresh session. -/
theorem C8_free_placement_terminates_witness :
    (stepDeliver semBlackTurn initialSession (Msg.started gCpe)).sentEnded
      = initialSession.sentEnded + 1 ∧
    (stepDeliver semBlackTurn initialSession (Msg.started gCpe)).exited = true ∧
    (stepDeliver semBlackTurn initialSession (Msg.started gCpe)).engine
      = initialSession.engine ∧
    (stepDeliver semBlackTurn initialSession (Msg.started gCpe)).maxTurn
      = initialSession.maxTurn ∧
    (stepDeliver semBlackTurn initialSession (Msg.started gCpe)).thinkCalls
      = initialSession.thinkCalls ∧
    (stepDeliver semBlackTurn initialSession (Msg.started gCpe)).inFlightThinks
      = initialSession.inFlightThinks ∧
    step semBlackTurn (stepDeliver semBlackTurn initialSession (Msg.started gCpe))
        Act.resumeEndedPost
      = stepDeliver semBlackTurn initialSession (Msg.started gCpe) :=
  C8_free_placement_terminates semBlackTurn initialSession gCpe Act.resumeEndedPost
    (by decide) (by decide)

/-- C9: think() has no in-flight guard: with the bot holding black, started
launches a fetch, and a put applied while that fetch is outstanding whose
resulting turn is black again launches a second fetch — two inference requests
are in flight at once. -/
theorem C9_two_thinks_in_flight :
    (run semBlackTurn initialSession traceTwoTriggers).inFlightThinks = 2 ∧
    (run semBlackTurn initialSession traceTwoTriggers).thinkCalls = 2 ∧
    (run semBlackTurn initialSession traceTwoTriggers).exited = false := by decide

/-- C10: along every schedule from the fresh session, startedNote remains its
null initialization and every note-create body issued on ended carries no
renoteId. -/
theorem C10_startedNote_never_assigned (sem : EngineSem) (acts : List Act) :
    (run sem initialSession acts).startedNote = none ∧
    ((run sem initialSession acts).posts.all fun p => p.renoteId == none) = true :=
  noteInv_run sem acts initialSession ⟨rfl, rfl⟩

end ReversiBack
